import Mathlib

/-!
Shallow embedding of the Waveshare Pico LCD 2 / ST7789 display driver
(`src/display.rs`, with the double-buffered render loop of `src/main.rs`).

The driver is modelled as a state machine whose operations emit a trace of
observable hardware events (pin transitions, blocking delays, synchronous SPI
writes, DMA transfer starts and waits).  Fallible operations (`Option::unwrap`
on the SPI handle, the DMA channel, the `singleton!` allocation, or the
in-flight transfer slot) are modelled by returning `Option`, where `none`
stands for a panic.  The result of each SPI bus write (`Result` in the source,
discarded with `let _ = ...` at every call site) is drawn from an oracle
`Nat → Bool` indexed by the number of writes issued so far, and recorded in the
trace so that independence from write outcomes is expressible.
-/

namespace Pico

/-- `WIDTH` in `display.rs`: panel width in pixels. -/
def WIDTH : Nat := 240

/-- `HEIGHT` in `display.rs`: panel height in pixels. -/
def HEIGHT : Nat := 320

/-- `BUFFER_SIZE` in `display.rs`: bytes per frame buffer (3 bytes per pixel). -/
def BUFFER_SIZE : Nat := WIDTH * HEIGHT * 3

/- ST7789VW command opcodes (`enum Command` in `display.rs`). -/
namespace Command

def SwReset : Nat := 0x01

def SlpOut : Nat := 0x11

def InvOn : Nat := 0x21

def DispOn : Nat := 0x29

def CaSet : Nat := 0x2A

def RaSet : Nat := 0x2B

def RamWr : Nat := 0x2C

def MadCtl : Nat := 0x36

def ColMod : Nat := 0x3A

def PvGamCtrl : Nat := 0xE0

def NvGamCtrl : Nat := 0xE1

end Command

/-- Observable hardware events emitted by the driver.  Pin events record the
new level (`true` = high).  `spiWrite` records the bytes written and the
outcome reported by the bus (`ok`), which the driver always discards.
`dmaStart b` / `dmaWait b` record starting, resp. blocking on, a DMA transfer
carrying the frame buffer identified by `b`. -/
inductive Ev where
  | csSet (high : Bool)
  | dcSet (high : Bool)
  | rstSet (high : Bool)
  | delayMs (ms : Nat)
  | delayNs (ns : Nat)
  | spiWrite (bytes : List Nat) (ok : Bool)
  | dmaStart (buf : Nat)
  | dmaWait (buf : Nat)
deriving DecidableEq

/-- Outcome oracle for SPI bus writes: the `k`-th `spi.write` call of an
operation reports success (`true`) or failure (`false`).  The driver ignores
the value in all cases. -/
def Oracle : Type := Nat → Bool

/-- The all-successful bus oracle. -/
def allOk : Oracle := fun _ => true

/-- Driver state (`WaveshareST7789Display` in `display.rs`).  `spiOwned` and
`dmaOwned` model the `Option<SPI>` / `Option<DMACH>` slots (`true` = `Some`);
`allocated` models the one-shot `singleton!` static allocation flag;
`transfer` models the `Option<Transfer>` slot, holding the identity of the
frame buffer carried by the in-flight DMA transfer. -/
structure DState where
  spiOwned : Bool
  dmaOwned : Bool
  allocated : Bool
  transfer : Option Nat
deriving DecidableEq

/-- `WaveshareST7789Display::new`: fresh driver with SPI and DMA channel
owned and no transfer in flight. -/
def newDisplay : DState := DState.mk true true false none

/-- Identity of frame buffer A (first `singleton!` allocation in `init`). -/
def bufA : Nat := 0

/-- Identity of frame buffer B (second `singleton!` allocation in `init`). -/
def bufB : Nat := 1

/-- Contents of frame buffer A at allocation: `[0u8; BUFFER_SIZE]`. -/
def bufAData : List Nat := List.replicate BUFFER_SIZE 0

/-- Contents of frame buffer B at allocation: `[0u8; BUFFER_SIZE]`. -/
def bufBData : List Nat := List.replicate BUFFER_SIZE 0

/-- CASET payload built in `init`: `[0x00, 0x00, (cols >> 8) as u8,
(cols & 0xFF) as u8]` with `cols = WIDTH - 1`. -/
def casetPayload : List Nat :=
  [0x00, 0x00, ((WIDTH - 1) >>> 8) % 256, (Nat.land (WIDTH - 1) 0xFF) % 256]

/-- RASET payload built in `init`: same encoding with `rows = HEIGHT - 1`. -/
def rasetPayload : List Nat :=
  [0x00, 0x00, ((HEIGHT - 1) >>> 8) % 256, (Nat.land (HEIGHT - 1) 0xFF) % 256]

/-- Positive gamma table sent after `PvGamCtrl` (verbatim from `init`). -/
def pvGamma : List Nat :=
  [0xD0, 0x08, 0x11, 0x08, 0x0C, 0x15, 0x39, 0x33, 0x50, 0x36, 0x13, 0x14, 0x29, 0x2D]

/-- Negative gamma table sent after `NvGamCtrl` (verbatim from `init`). -/
def nvGamma : List Nat :=
  [0xD0, 0x08, 0x10, 0x08, 0x06, 0x06, 0x39, 0x44, 0x51, 0x0B, 0x16, 0x14, 0x2F, 0x31]

/-- Trace of `write_command` (`display.rs` lines 181-188): command mode (DC
low), select (CS low), settle, write one opcode byte, deselect (CS high),
settle.  `k` is the index of this SPI write in the enclosing operation. -/
def write_command (o : Oracle) (k : Nat) (c : Nat) : List Ev :=
  [Ev.dcSet false, Ev.csSet false, Ev.delayNs 100,
   Ev.spiWrite [c] (o k), Ev.csSet true, Ev.delayNs 100]

/-- Trace of `write_data` (`display.rs` lines 191-198): data mode (DC high),
select, settle, write the payload, deselect, settle. -/
def write_data (o : Oracle) (k : Nat) (data : List Nat) : List Ev :=
  [Ev.dcSet true, Ev.csSet false, Ev.delayNs 100,
   Ev.spiWrite data (o k), Ev.csSet true, Ev.delayNs 100]

/-- Trace of `hard_reset` (`display.rs` lines 160-167). -/
def hard_reset : List Ev :=
  [Ev.rstSet true, Ev.delayMs 100, Ev.rstSet false, Ev.delayMs 100,
   Ev.rstSet true, Ev.delayMs 120]

/-- Trace of `start_frame` (`display.rs` lines 170-178): command mode, select,
settle, write the `RamWr` opcode, settle, switch to data mode, 1 ms delay.
Note that chip-select is left asserted for the DMA data phase that follows. -/
def start_frame (o : Oracle) (k : Nat) : List Ev :=
  [Ev.dcSet false, Ev.csSet false, Ev.delayNs 100,
   Ev.spiWrite [Command.RamWr] (o k), Ev.delayNs 100,
   Ev.dcSet true, Ev.delayMs 1]

/-- Result of a driver operation: emitted trace, successor state, and the
frame buffer handed back to the caller. -/
structure StepResult where
  trace : List Ev
  state : DState
  ret : Nat
deriving DecidableEq

/-- `init` (`display.rs` lines 75-131).  Requires the SPI handle and the DMA
channel to be present (their `unwrap`s) and the static buffers to be
unallocated (the `singleton!` `unwrap`s); otherwise the source panics,
modelled as `none`.  Emits the bring-up sequence, allocates the two
zero-initialized buffers, primes the panel with a synchronous write of buffer
A, starts the first DMA transfer with buffer A and returns buffer B. -/
def init (o : Oracle) (s : DState) : Option StepResult :=
  if s.spiOwned && s.dmaOwned && !s.allocated then
    some (StepResult.mk
      ([Ev.csSet true] ++ hard_reset
        ++ write_command o 0 Command.SwReset ++ [Ev.delayMs 150]
        ++ write_command o 1 Command.SlpOut ++ [Ev.delayMs 150]
        ++ write_command o 2 Command.ColMod ++ write_data o 3 [0x06]
        ++ write_command o 4 Command.MadCtl ++ write_data o 5 [0x00]
        ++ write_command o 6 Command.InvOn
        ++ write_command o 7 Command.CaSet ++ write_data o 8 casetPayload
        ++ write_command o 9 Command.RaSet ++ write_data o 10 rasetPayload
        ++ write_command o 11 Command.PvGamCtrl ++ write_data o 12 pvGamma
        ++ write_command o 13 Command.NvGamCtrl ++ write_data o 14 nvGamma
        ++ write_command o 15 Command.RamWr ++ [Ev.delayMs 1]
        ++ write_data o 16 bufAData ++ [Ev.delayMs 1]
        ++ write_command o 17 Command.DispOn ++ [Ev.delayMs 120]
        ++ start_frame o 18
        ++ [Ev.dmaStart bufA])
      (DState.mk false false true (some bufA))
      bufB)
  else none

/-- `swap_buffers` (`display.rs` lines 139-157).  Takes the in-flight
transfer out of its slot (`unwrap`: panics, i.e. `none`, when empty), blocks
on its completion, deasserts chip-select, re-arms RAM-write framing via
`start_frame`, starts a new DMA transfer with the caller's `ready` buffer and
returns the just-completed buffer. -/
def swap_buffers (o : Oracle) (k : Nat) (s : DState) (ready : Nat) :
    Option StepResult :=
  match s.transfer with
  | none => none
  | some t =>
      some (StepResult.mk
        ([Ev.dmaWait t, Ev.csSet true, Ev.delayMs 1]
          ++ start_frame o k ++ [Ev.dmaStart ready])
        (DState.mk s.spiOwned s.dmaOwned s.allocated (some ready))
        t)

/-- The rendering loop of `main.rs` (lines 128-146): `init` on a fresh
driver, then `n` iterations of filling the held buffer and swapping it in.
Returns the driver state and the buffer the caller holds after `n` swaps. -/
def runLoop (o : Oracle) : Nat → Option (DState × Nat)
  | 0 => (init o newDisplay).map (fun r => (r.state, r.ret))
  | n + 1 =>
      (runLoop o n).bind (fun p =>
        (swap_buffers o 0 p.1 p.2).map (fun r => (r.state, r.ret)))

/-- Buffer returned by the operation, when it does not panic. -/
def retOf (r : Option StepResult) : Option Nat := r.map StepResult.ret

/-- Transfer slot of the successor state, when the operation does not panic. -/
def transferOf (r : Option StepResult) : Option (Option Nat) :=
  r.map (fun x => x.state.transfer)

/-- Trace emitted by the operation (empty on panic). -/
def traceOf (r : Option StepResult) : List Ev :=
  (r.map StepResult.trace).getD []

/-- Number of trace events satisfying `p`. -/
def countEv (p : Ev → Bool) (r : Option StepResult) : Nat :=
  (traceOf r).countP p

/-- Index of the first trace event satisfying `p`. -/
def idxEv (p : Ev → Bool) (r : Option StepResult) : Nat :=
  (traceOf r).findIdx p

/-- Recognizer for chip-select assertion events. -/
def isCsLow : Ev → Bool
  | Ev.csSet false => true
  | _ => false

/-- Recognizer for chip-select deassertion events. -/
def isCsHigh : Ev → Bool
  | Ev.csSet true => true
  | _ => false

/-- Recognizer for data/command line events. -/
def isDcSet : Ev → Bool
  | Ev.dcSet _ => true
  | _ => false

/-- Recognizer for synchronous SPI writes. -/
def isSpi : Ev → Bool
  | Ev.spiWrite _ _ => true
  | _ => false

/-- Recognizer for DMA transfer starts. -/
def isDmaStart : Ev → Bool
  | Ev.dmaStart _ => true
  | _ => false

/-- Recognizer for DMA wait-for-completion events. -/
def isDmaWait : Ev → Bool
  | Ev.dmaWait _ => true
  | _ => false

/-- Chip-select level after replaying a trace from initial level `l0`
(`true` = high/deasserted). -/
def csAfter (l0 : Bool) (tr : List Ev) : Bool :=
  tr.foldl (fun acc e => match e with | Ev.csSet h => h | _ => acc) l0

/-- Data/command level after replaying a trace from initial level `l0`. -/
def dcAfter (l0 : Bool) (tr : List Ev) : Bool :=
  tr.foldl (fun acc e => match e with | Ev.dcSet h => h | _ => acc) l0

/-- Last event of a trace (as a left fold, so it computes through appends). -/
def lastEv (tr : List Ev) : Option Ev :=
  tr.foldl (fun _ e => some e) none

/-- Erase the bus-reported outcome from an event (used to state that the
driver's behaviour does not depend on bus-write results). -/
def eraseOk : Ev → Ev
  | Ev.spiWrite b _ => Ev.spiWrite b true
  | e => e

/-- Operation result with bus-write outcomes erased from the trace. -/
def eraseRes (r : Option StepResult) : Option (List Ev × DState × Nat) :=
  r.map (fun x => (x.trace.map eraseOk, x.state, x.ret))

/-- Driver state after `init` succeeds: buffer A in flight, SPI and DMA
consumed by the transfer, statics allocated. -/
def postInit : DState := DState.mk false false true (some bufA)

/-- Driver state with an arbitrary buffer `b` in flight (steady state of the
swap loop). -/
def stInFlight (b : Nat) : DState := DState.mk false false true (some b)

/-- The concrete `init` trace under the all-successful oracle. -/
def initTrace : List Ev := traceOf (init allOk newDisplay)

/-- The concrete `swap_buffers` trace from a state with `b` in flight, when
the caller hands in `r`. -/
def swapTrace (o : Oracle) (k b r : Nat) : List Ev :=
  traceOf (swap_buffers o k (stInFlight b) r)

set_option maxRecDepth 8000
set_option maxHeartbeats 2000000

/-- Replaying chip-select levels distributes over trace concatenation. -/
lemma csAfter_append (l0 : Bool) (xs ys : List Ev) :
    csAfter l0 (xs ++ ys) = csAfter (csAfter l0 xs) ys := by
  simp [csAfter, List.foldl_append]

/-- Replaying data/command levels distributes over trace concatenation. -/
lemma dcAfter_append (l0 : Bool) (xs ys : List Ev) :
    dcAfter l0 (xs ++ ys) = dcAfter (dcAfter l0 xs) ys := by
  simp [dcAfter, List.foldl_append]

/-- `init` on a fresh driver succeeds and produces the bring-up trace, the
armed state, and buffer B, for every bus-write oracle. -/
lemma initRes_eq (o : Oracle) :
    init o newDisplay = some (StepResult.mk
      ([Ev.csSet true] ++ hard_reset
        ++ write_command o 0 Command.SwReset ++ [Ev.delayMs 150]
        ++ write_command o 1 Command.SlpOut ++ [Ev.delayMs 150]
        ++ write_command o 2 Command.ColMod ++ write_data o 3 [0x06]
        ++ write_command o 4 Command.MadCtl ++ write_data o 5 [0x00]
        ++ write_command o 6 Command.InvOn
        ++ write_command o 7 Command.CaSet ++ write_data o 8 casetPayload
        ++ write_command o 9 Command.RaSet ++ write_data o 10 rasetPayload
        ++ write_command o 11 Command.PvGamCtrl ++ write_data o 12 pvGamma
        ++ write_command o 13 Command.NvGamCtrl ++ write_data o 14 nvGamma
        ++ write_command o 15 Command.RamWr ++ [Ev.delayMs 1]
        ++ write_data o 16 bufAData ++ [Ev.delayMs 1]
        ++ write_command o 17 Command.DispOn ++ [Ev.delayMs 120]
        ++ start_frame o 18
        ++ [Ev.dmaStart bufA])
      (DState.mk false false true (some bufA))
      bufB) := by
  simp [init, newDisplay]

/-- Closed form of the render loop: after `n` swaps the engine is transferring
buffer `n % 2` and the caller holds the other buffer. -/
lemma runLoop_eq (o : Oracle) (n : Nat) :
    runLoop o n = some (DState.mk false false true (some (n % 2)), 1 - n % 2) := by
  induction n with
  | zero => simp [runLoop, init, newDisplay, bufA, bufB]
  | succ n ih =>
      rw [runLoop, ih]
      have h : n % 2 = 0 ∨ n % 2 = 1 := by omega
      have h1 : (n + 1) % 2 = 1 - n % 2 := by omega
      have h2 : 1 - (n + 1) % 2 = n % 2 := by omega
      rcases h with h | h <;>
        simp [swap_buffers, h, h1, h2, Option.bind]

/-- Every byte of a zero-filled buffer is zero. -/
lemma all_zero_replicate (n : Nat) :
    (List.replicate n 0).all (fun x => x == 0) = true := by
  induction n with
  | zero => rfl
  | succ m ih => simp [List.replicate, ih]

/-- C1: from a state with one transfer in flight, `swap_buffers` performs
exactly one wait-for-completion (on the outstanding transfer, as the very
first event) and exactly one DMA start (carrying the caller's buffer, as the
very last event), the wait strictly preceding the start; it returns the
just-completed buffer and leaves exactly the caller's buffer in flight. -/
theorem swap_single_handoff (o : Oracle) (k : Nat) (s : DState) (ready t : Nat)
    (h : s.transfer = some t) :
    retOf (swap_buffers o k s ready) = some t ∧
    transferOf (swap_buffers o k s ready) = some (some ready) ∧
    countEv isDmaWait (swap_buffers o k s ready) = 1 ∧
    countEv isDmaStart (swap_buffers o k s ready) = 1 ∧
    idxEv isDmaWait (swap_buffers o k s ready) <
      idxEv isDmaStart (swap_buffers o k s ready) ∧
    (traceOf (swap_buffers o k s ready)).head? = some (Ev.dmaWait t) ∧
    lastEv (traceOf (swap_buffers o k s ready)) = some (Ev.dmaStart ready) := by
  simp only [swap_buffers, h, retOf, transferOf, countEv, idxEv, traceOf, lastEv]
  exact ⟨rfl, rfl, rfl, rfl, Nat.lt_of_sub_eq_succ rfl, rfl, rfl⟩

/-- Witness for `swap_single_handoff` at the post-`init` state. -/
theorem swap_single_handoff_witness :
    retOf (swap_buffers allOk 0 postInit bufB) = some bufA ∧
    transferOf (swap_buffers allOk 0 postInit bufB) = some (some bufB) ∧
    countEv isDmaWait (swap_buffers allOk 0 postInit bufB) = 1 ∧
    countEv isDmaStart (swap_buffers allOk 0 postInit bufB) = 1 ∧
    idxEv isDmaWait (swap_buffers allOk 0 postInit bufB) <
      idxEv isDmaStart (swap_buffers allOk 0 postInit bufB) ∧
    (traceOf (swap_buffers allOk 0 postInit bufB)).head? = some (Ev.dmaWait bufA) ∧
    lastEv (traceOf (swap_buffers allOk 0 postInit bufB)) = some (Ev.dmaStart bufB) :=
  swap_single_handoff allOk 0 postInit bufB bufA rfl

/-- C2: along the render loop (each call passing back the previously returned
buffer), the loop never panics, consecutive results are never the same buffer,
every result is one of the two static buffers, the engine always holds exactly
one buffer distinct from the caller's, and caller-owned plus engine-owned
buffers always number exactly two. -/
theorem loop_buffer_alternation (o : Oracle) (n : Nat) :
    ∃ s b s' b' t t',
      runLoop o n = some (s, b) ∧ runLoop o (n + 1) = some (s', b') ∧
      s.transfer = some t ∧ s'.transfer = some t' ∧
      b ≠ b' ∧
      (b = bufA ∨ b = bufB) ∧ (b' = bufA ∨ b' = bufB) ∧
      t ≠ b ∧ t' ≠ b' ∧
      (t = bufA ∨ t = bufB) ∧
      ({t, b} : Finset Nat).card = 2 ∧ ({t', b'} : Finset Nat).card = 2 := by
  have h1 := runLoop_eq o n
  have h2 := runLoop_eq o (n + 1)
  rcases (by omega : n % 2 = 0 ∨ n % 2 = 1) with h | h
  · rw [h] at h1
    rw [(by omega : (n + 1) % 2 = 1)] at h2
    exact ⟨_, _, _, _, _, _, h1, h2, rfl, rfl, by decide, by decide, by decide,
      by decide, by decide, by decide, by decide, by decide⟩
  · rw [h] at h1
    rw [(by omega : (n + 1) % 2 = 0)] at h2
    exact ⟨_, _, _, _, _, _, h1, h2, rfl, rfl, by decide, by decide, by decide,
      by decide, by decide, by decide, by decide, by decide⟩

/-- C3: on a freshly constructed driver, `init` does not panic, ends with
exactly one DMA transfer in flight (and no wait), that transfer is started as
the last step and carries frame buffer A, whose contents are all zeros, and
the caller receives exactly frame buffer B, which is a different buffer. -/
theorem init_arms_single_transfer (o : Oracle) :
    retOf (init o newDisplay) = some bufB ∧
    transferOf (init o newDisplay) = some (some bufA) ∧
    countEv isDmaStart (init o newDisplay) = 1 ∧
    countEv isDmaWait (init o newDisplay) = 0 ∧
    lastEv (traceOf (init o newDisplay)) = some (Ev.dmaStart bufA) ∧
    bufAData.all (fun x => x == 0) = true ∧
    bufA ≠ bufB := by
  have h := initRes_eq o
  refine ⟨?_, ?_, ?_, ?_, ?_, all_zero_replicate _, by decide⟩
  · simp [retOf, h]
  · simp [transferOf, h]
  · simp only [countEv, traceOf, h, Option.map_some', Option.getD_some]
    simp [List.countP_append, write_command, write_data, start_frame,
      hard_reset, isDmaStart]
  · simp only [countEv, traceOf, h, Option.map_some', Option.getD_some]
    simp [List.countP_append, write_command, write_data, start_frame,
      hard_reset, isDmaWait]
  · rw [traceOf, initRes_eq]
    simp [lastEv, List.foldl_append]

/-- C4: the full `init` trace, in order: hardware reset with its delays, then
SWRESET (150 ms), SLPOUT (150 ms), COLMOD `0x06`, MADCTL `0x00`, INVON,
CASET, RASET, the two 14-byte gamma tables, RAMWR plus a synchronous transmit
of the zeroed buffer A, DISPON (120 ms), and finally RAMWR framing for the
first DMA transfer. -/
theorem init_sequence_order :
    initTrace =
      [Ev.csSet true,
       Ev.rstSet true, Ev.delayMs 100, Ev.rstSet false, Ev.delayMs 100,
       Ev.rstSet true, Ev.delayMs 120,
       Ev.dcSet false, Ev.csSet false, Ev.delayNs 100, Ev.spiWrite [0x01] true,
       Ev.csSet true, Ev.delayNs 100,
       Ev.delayMs 150,
       Ev.dcSet false, Ev.csSet false, Ev.delayNs 100, Ev.spiWrite [0x11] true,
       Ev.csSet true, Ev.delayNs 100,
       Ev.delayMs 150,
       Ev.dcSet false, Ev.csSet false, Ev.delayNs 100, Ev.spiWrite [0x3A] true,
       Ev.csSet true, Ev.delayNs 100,
       Ev.dcSet true, Ev.csSet false, Ev.delayNs 100, Ev.spiWrite [0x06] true,
       Ev.csSet true, Ev.delayNs 100,
       Ev.dcSet false, Ev.csSet false, Ev.delayNs 100, Ev.spiWrite [0x36] true,
       Ev.csSet true, Ev.delayNs 100,
       Ev.dcSet true, Ev.csSet false, Ev.delayNs 100, Ev.spiWrite [0x00] true,
       Ev.csSet true, Ev.delayNs 100,
       Ev.dcSet false, Ev.csSet false, Ev.delayNs 100, Ev.spiWrite [0x21] true,
       Ev.csSet true, Ev.delayNs 100,
       Ev.dcSet false, Ev.csSet false, Ev.delayNs 100, Ev.spiWrite [0x2A] true,
       Ev.csSet true, Ev.delayNs 100,
       Ev.dcSet true, Ev.csSet false, Ev.delayNs 100,
       Ev.spiWrite [0x00, 0x00, 0x00, 0xEF] true, Ev.csSet true, Ev.delayNs 100,
       Ev.dcSet false, Ev.csSet false, Ev.delayNs 100, Ev.spiWrite [0x2B] true,
       Ev.csSet true, Ev.delayNs 100,
       Ev.dcSet true, Ev.csSet false, Ev.delayNs 100,
       Ev.spiWrite [0x00, 0x00, 0x01, 0x3F] true, Ev.csSet true, Ev.delayNs 100,
       Ev.dcSet false, Ev.csSet false, Ev.delayNs 100, Ev.spiWrite [0xE0] true,
       Ev.csSet true, Ev.delayNs 100,
       Ev.dcSet true, Ev.csSet false, Ev.delayNs 100,
       Ev.spiWrite [0xD0, 0x08, 0x11, 0x08, 0x0C, 0x15, 0x39, 0x33, 0x50, 0x36,
         0x13, 0x14, 0x29, 0x2D] true, Ev.csSet true, Ev.delayNs 100,
       Ev.dcSet false, Ev.csSet false, Ev.delayNs 100, Ev.spiWrite [0xE1] true,
       Ev.csSet true, Ev.delayNs 100,
       Ev.dcSet true, Ev.csSet false, Ev.delayNs 100,
       Ev.spiWrite [0xD0, 0x08, 0x10, 0x08, 0x06, 0x06, 0x39, 0x44, 0x51, 0x0B,
         0x16, 0x14, 0x2F, 0x31] true, Ev.csSet true, Ev.delayNs 100,
       Ev.dcSet false, Ev.csSet false, Ev.delayNs 100, Ev.spiWrite [0x2C] true,
       Ev.csSet true, Ev.delayNs 100,
       Ev.delayMs 1,
       Ev.dcSet true, Ev.csSet false, Ev.delayNs 100,
       Ev.spiWrite (List.replicate BUFFER_SIZE 0) true, Ev.csSet true,
       Ev.delayNs 100,
       Ev.delayMs 1,
       Ev.dcSet false, Ev.csSet false, Ev.delayNs 100, Ev.spiWrite [0x29] true,
       Ev.csSet true, Ev.delayNs 100,
       Ev.delayMs 120,
       Ev.dcSet false, Ev.csSet false, Ev.delayNs 100, Ev.spiWrite [0x2C] true,
       Ev.delayNs 100, Ev.dcSet true, Ev.delayMs 1,
       Ev.dmaStart 0] := rfl

/-- C5: the CASET payload for `WIDTH = 240` is `[0x00, 0x00, 0x00, 0xEF]` and
the RASET payload for `HEIGHT = 320` is `[0x00, 0x00, 0x01, 0x3F]`, and these
are exactly the bytes sent (six events) after the `CaSet`, resp. `RaSet`,
opcode in the `init` trace. -/
theorem address_window_payloads :
    WIDTH = 240 ∧ HEIGHT = 320 ∧
    casetPayload = [0x00, 0x00, 0x00, 0xEF] ∧
    rasetPayload = [0x00, 0x00, 0x01, 0x3F] ∧
    initTrace[54]? = some (Ev.spiWrite [Command.CaSet] true) ∧
    initTrace[60]? = some (Ev.spiWrite casetPayload true) ∧
    initTrace[66]? = some (Ev.spiWrite [Command.RaSet] true) ∧
    initTrace[72]? = some (Ev.spiWrite rasetPayload true) :=
  ⟨rfl, rfl, by decide, by decide, rfl, rfl, rfl, rfl⟩

/-- C6: each frame buffer has length exactly
`WIDTH * HEIGHT * 3 = 240 * 320 * 3 = 230400` bytes, both buffers have the
same size, and both are zero-initialized at allocation. -/
theorem framebuffer_allocation :
    BUFFER_SIZE = WIDTH * HEIGHT * 3 ∧
    bufAData.length = 230400 ∧
    bufBData.length = bufAData.length ∧
    bufAData.all (fun x => x == 0) = true ∧
    bufBData.all (fun x => x == 0) = true := by
  refine ⟨rfl, ?_, rfl, all_zero_replicate _, all_zero_replicate _⟩
  show (List.replicate BUFFER_SIZE 0).length = 230400
  rw [List.length_replicate]
  decide

/-- C7: in every command or data send (`write_command`, `write_data`,
`start_frame`), the data/command line is set strictly before chip-select is
asserted; `write_command` and `write_data` assert chip-select exactly once,
perform exactly one bus write strictly inside the asserted window, deassert
exactly once afterwards, and leave chip-select high; `start_frame` likewise
sets the data/command line first and performs its single bus write after
asserting chip-select (which it leaves asserted for the DMA data phase). -/
theorem command_framing (o : Oracle) (k c : Nat) (d : List Nat) :
    (write_command o k c).countP isCsLow = 1 ∧
    (write_command o k c).countP isCsHigh = 1 ∧
    (write_command o k c).countP isSpi = 1 ∧
    (write_command o k c).findIdx isDcSet < (write_command o k c).findIdx isCsLow ∧
    (write_command o k c).findIdx isCsLow < (write_command o k c).findIdx isSpi ∧
    (write_command o k c).findIdx isSpi < (write_command o k c).findIdx isCsHigh ∧
    csAfter true (write_command o k c) = true ∧
    (write_data o k d).countP isCsLow = 1 ∧
    (write_data o k d).countP isCsHigh = 1 ∧
    (write_data o k d).countP isSpi = 1 ∧
    (write_data o k d).findIdx isDcSet < (write_data o k d).findIdx isCsLow ∧
    (write_data o k d).findIdx isCsLow < (write_data o k d).findIdx isSpi ∧
    (write_data o k d).findIdx isSpi < (write_data o k d).findIdx isCsHigh ∧
    csAfter true (write_data o k d) = true ∧
    (start_frame o k).countP isCsLow = 1 ∧
    (start_frame o k).countP isCsHigh = 0 ∧
    (start_frame o k).countP isSpi = 1 ∧
    (start_frame o k).findIdx isDcSet < (start_frame o k).findIdx isCsLow ∧
    (start_frame o k).findIdx isCsLow < (start_frame o k).findIdx isSpi :=
  ⟨rfl, rfl, rfl, Nat.lt_of_sub_eq_succ rfl, Nat.lt_of_sub_eq_succ rfl,
   Nat.lt_of_sub_eq_succ rfl, rfl,
   rfl, rfl, rfl, Nat.lt_of_sub_eq_succ rfl, Nat.lt_of_sub_eq_succ rfl,
   Nat.lt_of_sub_eq_succ rfl, rfl,
   rfl, rfl, rfl, Nat.lt_of_sub_eq_succ rfl, Nat.lt_of_sub_eq_succ rfl⟩

/-- C8: bus-write outcomes never influence the driver: for any two outcome
oracles, `swap_buffers` and `init` produce the same successor state, the same
returned buffer, and the same trace up to the recorded outcomes themselves
(and they panic in exactly the same situations). -/
theorem write_failures_ignored (o₁ o₂ : Oracle) (k₁ k₂ : Nat) (s : DState)
    (ready : Nat) :
    eraseRes (swap_buffers o₁ k₁ s ready) = eraseRes (swap_buffers o₂ k₂ s ready) ∧
    retOf (swap_buffers o₁ k₁ s ready) = retOf (swap_buffers o₂ k₂ s ready) ∧
    transferOf (swap_buffers o₁ k₁ s ready) = transferOf (swap_buffers o₂ k₂ s ready) ∧
    eraseRes (init o₁ s) = eraseRes (init o₂ s) ∧
    retOf (init o₁ s) = retOf (init o₂ s) ∧
    transferOf (init o₁ s) = transferOf (init o₂ s) := by
  refine ⟨?_, ?_, ?_, ?_, ?_, ?_⟩
  · cases h : s.transfer <;> simp [swap_buffers, h, eraseRes, start_frame, eraseOk]
  · cases h : s.transfer <;> simp [swap_buffers, h, retOf]
  · cases h : s.transfer <;> simp [swap_buffers, h, transferOf]
  · unfold init
    split
    · simp [eraseRes, hard_reset, write_command, write_data, start_frame, eraseOk]
    · rfl
  · unfold init
    split <;> simp [retOf]
  · unfold init
    split <;> simp [transferOf]

/-- C9: `init` ends on the DMA start with chip-select left asserted (low) and
the data/command line high, and emits no pin event afterwards; a
`swap_buffers` call from a state with `b` in flight begins with the
wait-for-completion of `b`, deasserts chip-select as its very next event (its
first deassert), and again ends on its DMA start with chip-select low and
data/command high.  So the lines hold their levels for the whole duration of
each transfer and chip-select is released only at the start of the next
`swap_buffers`, after the transfer completed. -/
theorem cs_held_during_dma (o : Oracle) (k b r : Nat) :
    lastEv (traceOf (init o newDisplay)) = some (Ev.dmaStart bufA) ∧
    csAfter true (traceOf (init o newDisplay)) = false ∧
    dcAfter false (traceOf (init o newDisplay)) = true ∧
    (swapTrace o k b r).head? = some (Ev.dmaWait b) ∧
    (swapTrace o k b r)[1]? = some (Ev.csSet true) ∧
    (swapTrace o k b r).findIdx isCsHigh = 1 ∧
    (swapTrace o k b r).findIdx isDmaWait = 0 ∧
    lastEv (swapTrace o k b r) = some (Ev.dmaStart r) ∧
    csAfter true (swapTrace o k b r) = false ∧
    dcAfter false (swapTrace o k b r) = true := by
  refine ⟨?_, ?_, ?_, rfl, rfl, rfl, rfl, rfl, rfl, rfl⟩
  · rw [traceOf, initRes_eq]
    simp [lastEv, List.foldl_append]
  · rw [traceOf, initRes_eq]
    simp [csAfter_append, csAfter, write_command, write_data, start_frame,
      hard_reset]
  · rw [traceOf, initRes_eq]
    simp [dcAfter_append, dcAfter, write_command, write_data, start_frame,
      hard_reset]

/-- C10: calling `swap_buffers` in any state with no transfer in flight — in
particular on a driver on which `init` has not been called — panics (the
`unwrap` of the empty transfer slot), modelled as `none`, instead of
returning a buffer or an error. -/
theorem swap_without_transfer (o : Oracle) (k : Nat) (s : DState) (ready : Nat)
    (h : s.transfer = none) :
    swap_buffers o k s ready = none := by
  simp [swap_buffers, h]

/-- Witness for `swap_without_transfer` on a freshly constructed driver. -/
theorem swap_without_transfer_witness :
    swap_buffers allOk 0 newDisplay bufA = none :=
  swap_without_transfer allOk 0 newDisplay bufA rfl

end Pico
